import Mathlib

/-!
Verification of the EPUB image-optimization and reference-consistency
pipeline of the `ewa` repository, shallowly embedded in Lean 4.

The embedding follows the Python sources:
  * `ewa/utils/epub/epub_data.py` (`ImageResizeStats`),
  * `ewa/utils/epub/epub_pipeline.py` (`_resize_single_image`,
    `_update_single_chapter`, `_remove_unused_images`, `package_epub`),
  * `ewa/utils/epub/image_processor.py` (`ImageProcessor`),
  * `ewa/utils/epub/chapter_processor.py` (`ChapterProcessor`),
  * `ewa/utils/epub/epub_state.py` (`EpubState`),
  * `library/markup/chapter_processor.py` (`ChapterProcessor`).

File-system effects (stat, save, unlink, exists) are passed in as explicit
oracle arguments; Python float division followed by `int(...)` on
non-negative values is modelled as natural-number floor division.
-/

/-- A file path, split into directory, stem and suffix (as in
`pathlib.Path`: `suffix` carries the leading dot). -/
structure EPath where
  dir : String
  stem : String
  suffix : String
deriving DecidableEq, Repr

/-- `Path.name`: stem plus suffix. -/
def EPath.name (p : EPath) : String := p.stem ++ p.suffix

/-- `Path.with_suffix`: replace the suffix, keeping directory and stem. -/
def EPath.withSuffix (p : EPath) (s : String) : EPath :=
  { dir := p.dir, stem := p.stem, suffix := s }

/-- PIL color modes relevant to the pipeline (`L` stands for any
non-RGB/RGBA mode, which the code passes through unchanged). -/
inductive ImgMode where
  | RGB
  | RGBA
  | L
deriving DecidableEq, Repr

/-- `ImageResizeStats.references_update_status`
(`ewa/utils/epub/epub_data.py`, lines 71-79): a pure function of the two
reference counters, returned as the status string. -/
def referencesUpdateStatus (total updated : Nat) : String :=
  if total = 0 then "orphaned"
  else if updated = 0 then "failed"
  else if updated = total then "success"
  else "partial"

/-- Modelled from the spec's words for claim C8: `orphaned` if
`total_references==0`; `failed` if `total_references>0 and
updated_references==0`; `success` if `updated_references==total_references`;
otherwise `partial` (cases read in order). -/
def referencesUpdateStatusSpec (total updated : Nat) : String :=
  if total = 0 then "orphaned"
  else if total > 0 ∧ updated = 0 then "failed"
  else if updated = total then "success"
  else "partial"

/-- C8: after all documents are processed, `reference_status` is exactly
the spec's four-way function of the two counters: the code's
`references_update_status` agrees with the spec's case list on every pair
of counter values. -/
theorem c8_reference_status_spec_equiv (total updated : Nat) :
    referencesUpdateStatus total updated = referencesUpdateStatusSpec total updated := by
  unfold referencesUpdateStatus referencesUpdateStatusSpec
  by_cases h0 : total = 0
  · simp [h0]
  · have hpos : total > 0 := Nat.pos_of_ne_zero h0
    by_cases h1 : updated = 0
    · simp [h0, h1, hpos]
    · simp [h0, h1, hpos]

/-- `ImageResizeStats.calculate_new_dimensions`
(`ewa/utils/epub/epub_data.py`, lines 102-113; the same formula appears in
`ewa/utils/epub_resizing.py` `calculate_dimensions`, lines 233-244).
`int(x * (a / b))` on non-negative values is modelled as `x * a / b` in
natural-number floor division.  Note the second clamp computes the new
width from the ORIGINAL `width`, not from the already-clamped width. -/
def calculateNewDimensions (dims : Nat × Nat) (maxWidth : Nat) (maxHeight : Option Nat) :
    Nat × Nat :=
  let width := dims.1
  let height := dims.2
  let nw1 := if width > maxWidth then maxWidth else width
  let nh1 := if width > maxWidth then height * maxWidth / width else height
  match maxHeight with
  | none => (nw1, nh1)
  | some mh => if nh1 > mh then (width * mh / nh1, mh) else (nw1, nh1)

/-- Modelled from the spec's words for claim C3: if width exceeds
`max_width`, scale both dimensions by `max_width/width`; if after that the
height still exceeds `max_height`, scale BOTH (already-clamped) dimensions
again by `max_height/height`. -/
def calculateNewDimensionsSpec (dims : Nat × Nat) (maxWidth : Nat) (maxHeight : Option Nat) :
    Nat × Nat :=
  let width := dims.1
  let height := dims.2
  let nw1 := if width > maxWidth then maxWidth else width
  let nh1 := if width > maxWidth then height * maxWidth / width else height
  match maxHeight with
  | none => (nw1, nh1)
  | some mh => if nh1 > mh then (nw1 * mh / nh1, mh) else (nw1, nh1)

/-- C3 counterexample: for a 2000x4000 image with `max_width = 1000` and
`max_height = 1000`, the code computes (1000, 1000) while the
aspect-preserving scaling of the spec gives (500, 1000); the result does
not preserve the 1:2 aspect ratio. -/
theorem c3_counterexample :
    calculateNewDimensions (2000, 4000) 1000 (some 1000) = (1000, 1000) ∧
    calculateNewDimensionsSpec (2000, 4000) 1000 (some 1000) = (500, 1000) ∧
    (calculateNewDimensions (2000, 4000) 1000 (some 1000)).1 * 4000 ≠
      2000 * (calculateNewDimensions (2000, 4000) 1000 (some 1000)).2 := by
  refine ⟨by decide, by decide, by decide⟩

/-- C3 (amended): the first clamp scales both dimensions by
`max_width/width`; the second clamp sets the height to `max_height` but
recomputes the width from the ORIGINAL width as
`⌊width * max_height / h₁⌋` (where `h₁` is the height after the first
clamp), so the aspect ratio is preserved only when the two clamps do not
both apply. -/
theorem c3_dimension_cases (w h mw mh : Nat) :
    (calculateNewDimensions (w, h) mw none =
       if w > mw then (mw, h * mw / w) else (w, h)) ∧
    (w ≤ mw → h ≤ mh → calculateNewDimensions (w, h) mw (some mh) = (w, h)) ∧
    (w ≤ mw → h > mh → calculateNewDimensions (w, h) mw (some mh) = (w * mh / h, mh)) ∧
    (w > mw → h * mw / w ≤ mh →
       calculateNewDimensions (w, h) mw (some mh) = (mw, h * mw / w)) ∧
    (w > mw → h * mw / w > mh →
       calculateNewDimensions (w, h) mw (some mh) = (w * mh / (h * mw / w), mh)) := by
  unfold calculateNewDimensions
  refine ⟨?_, ?_, ?_, ?_, ?_⟩
  · by_cases hw : w > mw <;> simp [hw]
  · intro hw hh
    have hw2 : ¬ (w > mw) := by omega
    have hh2 : ¬ (h > mh) := by omega
    simp [hw2, hh2]
  · intro hw hh
    have hw2 : ¬ (w > mw) := by omega
    simp [hw2, hh]
  · intro hw hh
    have hh2 : ¬ (h * mw / w > mh) := by omega
    simp [hw, hh2]
  · intro hw hh
    simp [hw, hh]

/-- C3 amended witness: both clamps applied at the concrete 2000x4000
input, landing in the final case of the characterization. -/
theorem c3_dimension_cases_witness :
    calculateNewDimensions (2000, 4000) 1000 (some 1000) =
      (2000 * 1000 / (4000 * 1000 / 2000), 1000) :=
  (c3_dimension_cases 2000 4000 1000 1000).2.2.2.2 (by decide) (by decide)

/-- One RGBA pixel (channel values as PIL reports them, 0-255). -/
structure Px where
  r : Nat
  g : Nat
  b : Nat
  a : Nat
deriving DecidableEq, Repr

/-- The (min, max) pair of one channel over all pixels, as
`PIL.Image.getextrema` computes per channel. -/
def channelExtrema (f : Px → Nat) : List Px → Nat × Nat
  | [] => (0, 0)
  | p :: rest => rest.foldl (fun acc q => (Nat.min acc.1 (f q), Nat.max acc.2 (f q))) (f p, f p)

/-- `PIL.Image.getextrema` on an RGBA image: four per-channel
(min, max) pairs. -/
def getextremaRGBA (ps : List Px) : List (Nat × Nat) :=
  [channelExtrema Px.r ps, channelExtrema Px.g ps,
   channelExtrema Px.b ps, channelExtrema Px.a ps]

/-- The minimum alpha value across the whole image (the quantity the
spec's transparency heuristic talks about), defined independently of
`getextremaRGBA`. -/
def alphaMinimum : List Px → Nat
  | [] => 0
  | p :: rest => rest.foldl (fun m q => Nat.min m q.a) p.a

lemma channelExtrema_fst_eq_min (f : Px → Nat) (rest : List Px) :
    ∀ (i j : Nat),
      (rest.foldl (fun acc q => (Nat.min acc.1 (f q), Nat.max acc.2 (f q))) (i, j)).1 =
        rest.foldl (fun m q => Nat.min m (f q)) i := by
  induction rest with
  | nil => intro i j; rfl
  | cons p rest ih => intro i j; exact ih (Nat.min i (f p)) (Nat.max j (f p))

lemma channelExtrema_alpha (ps : List Px) :
    (channelExtrema Px.a ps).1 = alphaMinimum ps := by
  cases ps with
  | nil => rfl
  | cons p rest =>
      unfold channelExtrema alphaMinimum
      exact channelExtrema_fst_eq_min Px.a rest p.a p.a

/-- `ImageResizeStats.calculate_new_mode`
(`ewa/utils/epub/epub_data.py`, lines 115-121): the new mode from the
original mode and the cached extrema (`extrema[3][0]` is the alpha
channel's minimum), and the new path (`.jpg` suffix exactly when the new
mode is RGB).  The `assert len(extrema) == 4` of the source is an
invariant of RGBA extrema; the embedding reads index 3 with a default. -/
def calculateNewMode (origMode : ImgMode) (extrema : List (Nat × Nat)) (origPath : EPath) :
    ImgMode × EPath :=
  let newMode :=
    match origMode with
    | ImgMode.RGBA => if (extrema.getD 3 (0, 0)).1 = 255 then ImgMode.RGB else ImgMode.RGBA
    | ImgMode.RGB => ImgMode.RGB
    | m => m
  (newMode, if newMode = ImgMode.RGB then origPath.withSuffix ".jpg" else origPath)

/-- C4: an RGBA image whose whole-image minimum alpha is full opacity
(255) gets target mode RGB and a path with the lossy-JPEG suffix; an RGBA
image with any non-opaque pixel (minimum alpha below 255) keeps mode RGBA
and its path unchanged. -/
theorem c4_rgba_mode (path : EPath) (ps : List Px) :
    (alphaMinimum ps = 255 →
       (calculateNewMode ImgMode.RGBA (getextremaRGBA ps) path).1 = ImgMode.RGB ∧
       (calculateNewMode ImgMode.RGBA (getextremaRGBA ps) path).2.suffix = ".jpg") ∧
    (alphaMinimum ps < 255 →
       (calculateNewMode ImgMode.RGBA (getextremaRGBA ps) path).1 = ImgMode.RGBA ∧
       (calculateNewMode ImgMode.RGBA (getextremaRGBA ps) path).2 = path) := by
  have hidx : (getextremaRGBA ps).getD 3 (0, 0) = channelExtrema Px.a ps := rfl
  have hmin_eq : ((getextremaRGBA ps).getD 3 (0, 0)).1 = alphaMinimum ps := by
    rw [hidx]; exact channelExtrema_alpha ps
  constructor
  · intro hmin
    simp only [calculateNewMode, hmin_eq, hmin]
    simp [EPath.withSuffix]
  · intro hmin
    have hne : ¬ (alphaMinimum ps = 255) := by omega
    simp only [calculateNewMode, hmin_eq]
    simp [hne]

/-- C4 witness: a fully opaque 2-pixel image converts to RGB/.jpg, and an
image with one translucent pixel stays RGBA with its path untouched. -/
theorem c4_rgba_mode_witness :
    ((calculateNewMode ImgMode.RGBA
        (getextremaRGBA [⟨1, 2, 3, 255⟩, ⟨7, 8, 9, 255⟩])
        ⟨"EPUB/Images", "cover", ".png"⟩).1 = ImgMode.RGB ∧
     (calculateNewMode ImgMode.RGBA
        (getextremaRGBA [⟨1, 2, 3, 255⟩, ⟨7, 8, 9, 255⟩])
        ⟨"EPUB/Images", "cover", ".png"⟩).2.suffix = ".jpg") ∧
    ((calculateNewMode ImgMode.RGBA
        (getextremaRGBA [⟨1, 2, 3, 255⟩, ⟨7, 8, 9, 120⟩])
        ⟨"EPUB/Images", "cover", ".png"⟩).1 = ImgMode.RGBA ∧
     (calculateNewMode ImgMode.RGBA
        (getextremaRGBA [⟨1, 2, 3, 255⟩, ⟨7, 8, 9, 120⟩])
        ⟨"EPUB/Images", "cover", ".png"⟩).2 = ⟨"EPUB/Images", "cover", ".png"⟩) :=
  ⟨(c4_rgba_mode ⟨"EPUB/Images", "cover", ".png"⟩ [⟨1, 2, 3, 255⟩, ⟨7, 8, 9, 255⟩]).1
      (by decide),
   (c4_rgba_mode ⟨"EPUB/Images", "cover", ".png"⟩ [⟨1, 2, 3, 255⟩, ⟨7, 8, 9, 120⟩]).2
      (by decide)⟩

/-- ASCII lowercasing of one character (`str.lower` on the suffix
alphabet actually used by the code). -/
def pyLowerChar (c : Char) : Char :=
  if 65 ≤ c.toNat ∧ c.toNat ≤ 90 then Char.ofNat (c.toNat + 32) else c

/-- Python `str.lower`, restricted to ASCII as the path suffixes are. -/
def pyLower (s : String) : String := ⟨s.data.map pyLowerChar⟩

/-- Decoded image header data as `PIL.Image.open` exposes it: mode, size
and (cached) per-channel extrema. -/
structure ImgInfo where
  mode : ImgMode
  dimensions : Nat × Nat
  extrema : List (Nat × Nat)
deriving DecidableEq, Repr

/-- `ImageResizeStats` (`ewa/utils/epub/epub_data.py`, lines 25-56):
`Option`/`[]` stand for Python `None` defaults. -/
structure ImageResizeStats where
  original_path : EPath
  original_size : Nat
  original_mode : Option ImgMode
  original_dimensions : Option (Nat × Nat)
  extrema : List (Nat × Nat)
  new_path : Option EPath
  new_size : Nat
  new_mode : Option ImgMode
  new_dimensions : Option (Nat × Nat)
  success : Bool
  error : Option String
  total_references : Nat
  updated_references : Nat
deriving DecidableEq, Repr

/-- `ImageResizeStats.renamed`: `new_path != original_path and new_path is
not None`. -/
def ImageResizeStats.renamed (s : ImageResizeStats) : Bool :=
  match s.new_path with
  | none => false
  | some p => p ≠ s.original_path

/-- `ImageResizeStats.to_resize`. -/
def ImageResizeStats.toResize (s : ImageResizeStats) : Bool :=
  s.original_dimensions ≠ s.new_dimensions

/-- `ImageResizeStats.to_convert`. -/
def ImageResizeStats.toConvert (s : ImageResizeStats) : Bool :=
  s.new_mode = some ImgMode.RGB

/-- `ImageResizeStats.to_save`. -/
def ImageResizeStats.toSave (s : ImageResizeStats) : Bool :=
  s.toResize || s.toConvert

/-- `ImageResizeStats.references_update_status` as a method. -/
def ImageResizeStats.refStatus (s : ImageResizeStats) : String :=
  referencesUpdateStatus s.total_references s.updated_references

/-- `ImageResizeStats.__post_init__`: runs `calculate_new_mode`, which
sets `new_mode` from the original mode/extrema and `new_path` (the `.jpg`
suffix exactly when the new mode is RGB; with mode `None` the path stays
unchanged). -/
def ImageResizeStats.postInit (s : ImageResizeStats) : ImageResizeStats :=
  match s.original_mode with
  | none => { s with new_mode := none, new_path := some s.original_path }
  | some m =>
      let mp := calculateNewMode m s.extrema s.original_path
      { s with new_mode := some mp.1, new_path := some mp.2 }

/-- `ImageResizeStats.from_image`: snapshot of path, on-disk size and the
decoded header, followed by `__post_init__`. -/
def ImageResizeStats.fromImage (path : EPath) (diskSize : Nat) (info : ImgInfo) :
    ImageResizeStats :=
  ImageResizeStats.postInit
    { original_path := path, original_size := diskSize,
      original_mode := some info.mode, original_dimensions := some info.dimensions,
      extrema := info.extrema, new_path := none, new_size := 0, new_mode := none,
      new_dimensions := none, success := true, error := none,
      total_references := 0, updated_references := 0 }

/-- `ImageResizeStats.calculate_new_dimensions` as a state update (only
ever called after `from_image`, so the dimensions are present; with `none`
the source would raise while unpacking). -/
def ImageResizeStats.calcNewDims (s : ImageResizeStats) (maxWidth : Nat)
    (maxHeight : Option Nat) : ImageResizeStats :=
  match s.original_dimensions with
  | none => s
  | some wh => { s with new_dimensions := some (calculateNewDimensions wh maxWidth maxHeight) }

/-- `_resize_single_image` (`ewa/utils/epub/epub_pipeline.py`, lines
383-424).  `diskSize` is `image_path.stat().st_size`; `info` is the
decoded header (an undecodable image makes the source raise out of the
function through its own `except` block and is not modelled);
`saveResult` is the byte size of the written file, `none` when the save
raises (the `except` branch). -/
def resizeSingleImage (path : EPath) (diskSize sizeThreshold maxWidth : Nat)
    (maxHeight : Option Nat) (info : ImgInfo) (saveResult : Option Nat) :
    ImageResizeStats :=
  let suffix := pyLower path.suffix
  if ¬ (suffix = ".jpg" ∨ suffix = ".jpeg" ∨ suffix = ".png") ∨ diskSize < sizeThreshold then
    ImageResizeStats.postInit
      { original_path := path, original_size := diskSize, original_mode := none,
        original_dimensions := none, extrema := [], new_path := none,
        new_size := diskSize, new_mode := none, new_dimensions := none,
        success := false,
        error := some "Unsupported image format or size is below threshold, skipping",
        total_references := 0, updated_references := 0 }
  else
    let stats0 := ImageResizeStats.fromImage path diskSize info
    let stats1 := stats0.calcNewDims maxWidth maxHeight
    if stats1.original_size < sizeThreshold then
      { stats1 with success := false, error := some "Image is too small, skipping" }
    else if stats1.toSave then
      match saveResult with
      | some n => { stats1 with new_size := n }
      | none => { stats1 with success := false, error := some "SaveException" }
    else
      { stats1 with new_path := some stats1.original_path, new_size := stats1.original_size }

/-- C5 counterexample: an eligible 60000-byte RGB png whose re-encoded
file comes out at 70000 bytes is kept: the result stays `success`,
remains renamed, and the recorded new size (70000) exceeds the original
size (60000) — there is no shrink guard. -/
theorem c5_counterexample :
    (resizeSingleImage ⟨"EPUB/Images", "photo", ".png"⟩ 60000 51200 1080 none
        ⟨ImgMode.RGB, (800, 600), [(0, 255), (0, 255), (0, 255)]⟩ (some 70000)).success
      = true ∧
    (resizeSingleImage ⟨"EPUB/Images", "photo", ".png"⟩ 60000 51200 1080 none
        ⟨ImgMode.RGB, (800, 600), [(0, 255), (0, 255), (0, 255)]⟩ (some 70000)).new_size
      = 70000 ∧
    (resizeSingleImage ⟨"EPUB/Images", "photo", ".png"⟩ 60000 51200 1080 none
        ⟨ImgMode.RGB, (800, 600), [(0, 255), (0, 255), (0, 255)]⟩ (some 70000)).original_size
      = 60000 ∧
    (resizeSingleImage ⟨"EPUB/Images", "photo", ".png"⟩ 60000 51200 1080 none
        ⟨ImgMode.RGB, (800, 600), [(0, 255), (0, 255), (0, 255)]⟩ (some 70000)).renamed
      = true := by
  refine ⟨by decide, by decide, by decide, by decide⟩

/-- C5 (amended): the transform has no shrink guard — every image whose
result is successful and renamed records exactly the written file's size
as `new_size`, whatever its relation to the original size; no revert to a
no-op result happens. -/
theorem c5_no_shrink_guard (path : EPath) (diskSize sizeThreshold maxWidth : Nat)
    (maxHeight : Option Nat) (info : ImgInfo) (saveResult : Option Nat)
    (hs : (resizeSingleImage path diskSize sizeThreshold maxWidth maxHeight info saveResult).success = true)
    (hr : (resizeSingleImage path diskSize sizeThreshold maxWidth maxHeight info saveResult).renamed = true) :
    ∃ n, saveResult = some n ∧
      (resizeSingleImage path diskSize sizeThreshold maxWidth maxHeight info saveResult).new_size = n := by
  unfold resizeSingleImage at hs hr ⊢
  by_cases h1 : ¬ ((pyLower path.suffix = ".jpg" ∨ pyLower path.suffix = ".jpeg" ∨
      pyLower path.suffix = ".png")) ∨ diskSize < sizeThreshold
  · simp only [h1, if_true] at hs
    simp [ImageResizeStats.postInit] at hs
  · simp only [h1, if_false] at hs hr ⊢
    by_cases h2 : ((ImageResizeStats.fromImage path diskSize info).calcNewDims maxWidth maxHeight).original_size < sizeThreshold
    · simp only [h2, if_true] at hs
      simp at hs
    · simp only [h2, if_false] at hs hr ⊢
      by_cases h3 : ((ImageResizeStats.fromImage path diskSize info).calcNewDims maxWidth maxHeight).toSave = true
      · simp only [h3, if_true] at hs hr ⊢
        cases saveResult with
        | none => simp at hs
        | some n => exact ⟨n, rfl, rfl⟩
      · simp only [eq_self_iff_true] at h3
        simp only [h3, Bool.false_eq_true, if_false] at hr
        simp [ImageResizeStats.renamed] at hr

/-- C5 amendment witness: the 70000-byte re-encoding of a 60000-byte
original is recorded as-is. -/
theorem c5_no_shrink_guard_witness :
    ∃ n, (some 70000 : Option Nat) = some n ∧
      (resizeSingleImage ⟨"EPUB/Images", "photo", ".png"⟩ 60000 51200 1080 none
          ⟨ImgMode.RGB, (800, 600), [(0, 255), (0, 255), (0, 255)]⟩ (some 70000)).new_size = n :=
  c5_no_shrink_guard ⟨"EPUB/Images", "photo", ".png"⟩ 60000 51200 1080 none
    ⟨ImgMode.RGB, (800, 600), [(0, 255), (0, 255), (0, 255)]⟩ (some 70000)
    (by decide) (by decide)

/-- `ImageOptimizationSettings` (`ewa/utils/epub/image_processor.py`,
lines 17-26): note there is no maximum-size field. -/
structure ImgSettings where
  size_threshold : Nat
  supported_suffixes : List String
  max_width : Nat
  max_height : Option Nat
  quality : Nat
deriving DecidableEq, Repr

/-- The dataclass defaults of `ImageOptimizationSettings`. -/
def defaultImgSettings : ImgSettings :=
  { size_threshold := 51200, supported_suffixes := [".jpg", ".jpeg", ".png"],
    max_width := 1080, max_height := none, quality := 80 }

/-- `ImageProcessor` (`ewa/utils/epub/image_processor.py`, lines 29-51):
the per-image record (settings are passed separately here). -/
structure IPRec where
  original_path : EPath
  original_size : Nat
  original_mode : Option ImgMode
  original_dimensions : Option (Nat × Nat)
  new_path : Option EPath
  new_size : Nat
  new_mode : Option ImgMode
  new_dimensions : Option (Nat × Nat)
  extrema : List (Nat × Nat)
  error : Option String
deriving DecidableEq, Repr

/-- `ImageProcessor.from_path`. -/
def IPRec.fromPath (path : EPath) (diskSize : Nat) : IPRec :=
  { original_path := path, original_size := diskSize, original_mode := none,
    original_dimensions := none, new_path := none, new_size := 0, new_mode := none,
    new_dimensions := none, extrema := [], error := none }

/-- `ImageProcessor.renamed`. -/
def IPRec.renamed (ip : IPRec) : Bool :=
  match ip.new_path with
  | none => false
  | some p => p ≠ ip.original_path

/-- `ImageProcessor.to_resize`. -/
def IPRec.toResize (ip : IPRec) : Bool := ip.original_dimensions ≠ ip.new_dimensions

/-- `ImageProcessor.to_convert`. -/
def IPRec.toConvert (ip : IPRec) : Bool := ip.new_mode = some ImgMode.RGB

/-- `ImageProcessor.to_save`. -/
def IPRec.toSave (ip : IPRec) : Bool := ip.toResize || ip.toConvert

/-- `ImageProcessor.is_eligible` (`ewa/utils/epub/image_processor.py`,
lines 144-151): checks only the minimum-size threshold and the suffix (no
maximum), records the cause in `error`, and returns the verdict. -/
def IPRec.isEligible (settings : ImgSettings) (ip : IPRec) : Bool × IPRec :=
  if ip.original_size < settings.size_threshold then
    (false, { ip with error := some (toString ip.original_size ++ " small") })
  else if ¬ (pyLower ip.original_path.suffix ∈ settings.supported_suffixes) then
    (false, { ip with error := some (pyLower ip.original_path.suffix ++ " unsupported") })
  else
    (true, ip)

/-- `ImageProcessor.not_eligible`: reset the new-side fields to the
originals (no transform). -/
def IPRec.notEligible (ip : IPRec) : IPRec :=
  { ip with new_path := some ip.original_path, new_size := ip.original_size,
            new_mode := ip.original_mode, new_dimensions := ip.original_dimensions }

/-- `ImageProcessor.update_from_image` followed by `__post_init__`
(`ewa/utils/epub/image_processor.py`, lines 105-136): refresh the original
mode/dimensions/extrema, compute the new mode and path, set the new size
to the original size, and compute the new dimensions from the settings. -/
def IPRec.updateFromImage (settings : ImgSettings) (ip : IPRec) (info : ImgInfo) : IPRec :=
  let mp := calculateNewMode info.mode info.extrema ip.original_path
  { ip with original_mode := some info.mode, original_dimensions := some info.dimensions,
            extrema := info.extrema, new_mode := some mp.1, new_path := some mp.2,
            new_size := ip.original_size,
            new_dimensions :=
              some (calculateNewDimensions info.dimensions settings.max_width
                      settings.max_height) }

/-- `ImageProcessor.optimize_image` (`ewa/utils/epub/image_processor.py`,
lines 202-229).  Returns the Python boolean result paired with the mutated
record.  `decoded = none` models `Image.open` raising; `saveResult = none`
models the save raising (both land in the `except` branch, which records
the exception class name, deletes a stray new file and resets the
new-side fields). -/
def IPRec.optimizeImage (settings : ImgSettings) (ip0 : IPRec) (decoded : Option ImgInfo)
    (saveResult : Option Nat) : Bool × IPRec :=
  let elig := ip0.isEligible settings
  if ¬ elig.1 then
    (true, elig.2.notEligible)
  else
    match decoded with
    | none => (false, ({ elig.2 with error := some "UnidentifiedImageError" }).notEligible)
    | some info =>
        let ip := IPRec.updateFromImage settings elig.2 info
        if ip.toSave then
          match saveResult with
          | some n => (true, { ip with new_size := n })
          | none => (false, ({ ip with error := some "OSError" }).notEligible)
        else
          (true, ({ ip with error := some "not eligible: unchanged mode and dimensions" }).notEligible)

/-- C6 counterexample: in the pipeline variant `_resize_single_image`, a
2048-byte png below the 51200-byte threshold is recorded with
`success = False` — a skipped image IS recorded as a failure there,
contradicting the claim. -/
theorem c6_counterexample :
    (resizeSingleImage ⟨"EPUB/Images", "icon", ".png"⟩ 2048 51200 1080 none
        ⟨ImgMode.RGB, (40, 40), []⟩ none).success = false ∧
    (resizeSingleImage ⟨"EPUB/Images", "icon", ".png"⟩ 2048 51200 1080 none
        ⟨ImgMode.RGB, (40, 40), []⟩ none).error.isSome = true := by
  refine ⟨by decide, by decide⟩

/-- C6 (amended): `ImageProcessor.is_eligible` rejects exactly the images
whose byte size is below the minimum threshold or whose suffix is not in
the supported set (there is no maximum-size check), and for every rejected
image `optimize_image` returns True (success) with a cause-specific error
marker and the new-side fields reset to the originals, performing no
transform; the pipeline variant `_resize_single_image`, by contrast,
records a skipped image with `success = False`. -/
theorem c6_not_eligible (settings : ImgSettings) (ip0 : IPRec) (decoded : Option ImgInfo)
    (saveResult : Option Nat) :
    ((ip0.isEligible settings).1 = false ↔
       (ip0.original_size < settings.size_threshold ∨
        ¬ (pyLower ip0.original_path.suffix ∈ settings.supported_suffixes))) ∧
    ((ip0.isEligible settings).1 = false →
       (IPRec.optimizeImage settings ip0 decoded saveResult).1 = true ∧
       (IPRec.optimizeImage settings ip0 decoded saveResult).2.error.isSome = true ∧
       (IPRec.optimizeImage settings ip0 decoded saveResult).2.new_path = some ip0.original_path ∧
       (IPRec.optimizeImage settings ip0 decoded saveResult).2.new_size = ip0.original_size ∧
       (IPRec.optimizeImage settings ip0 decoded saveResult).2.new_mode = ip0.original_mode ∧
       (IPRec.optimizeImage settings ip0 decoded saveResult).2.new_dimensions
         = ip0.original_dimensions) := by
  by_cases h1 : ip0.original_size < settings.size_threshold
  · constructor
    · simp [IPRec.isEligible, h1]
    · intro _
      simp [IPRec.optimizeImage, IPRec.isEligible, h1, IPRec.notEligible]
  · by_cases h2 : pyLower ip0.original_path.suffix ∈ settings.supported_suffixes
    · constructor
      · simp [IPRec.isEligible, h1, h2]
      · intro hcontra
        simp [IPRec.isEligible, h1, h2] at hcontra
    · constructor
      · simp [IPRec.isEligible, h1, h2]
      · intro _
        simp [IPRec.optimizeImage, IPRec.isEligible, h1, h2, IPRec.notEligible]

/-- C6 amendment witness: the 2048-byte png is rejected for size, and
`optimize_image` marks it successful with its fields untouched. -/
theorem c6_not_eligible_witness :
    ((((IPRec.fromPath ⟨"EPUB/Images", "icon", ".png"⟩ 2048).isEligible
        defaultImgSettings).1 = false) ↔
       ((IPRec.fromPath ⟨"EPUB/Images", "icon", ".png"⟩ 2048).original_size
          < defaultImgSettings.size_threshold ∨
        ¬ (pyLower (IPRec.fromPath ⟨"EPUB/Images", "icon", ".png"⟩ 2048).original_path.suffix
             ∈ defaultImgSettings.supported_suffixes))) ∧
    ((IPRec.optimizeImage defaultImgSettings
        (IPRec.fromPath ⟨"EPUB/Images", "icon", ".png"⟩ 2048) none none).1 = true ∧
     (IPRec.optimizeImage defaultImgSettings
        (IPRec.fromPath ⟨"EPUB/Images", "icon", ".png"⟩ 2048) none none).2.error.isSome = true ∧
     (IPRec.optimizeImage defaultImgSettings
        (IPRec.fromPath ⟨"EPUB/Images", "icon", ".png"⟩ 2048) none none).2.new_path
       = some (IPRec.fromPath ⟨"EPUB/Images", "icon", ".png"⟩ 2048).original_path ∧
     (IPRec.optimizeImage defaultImgSettings
        (IPRec.fromPath ⟨"EPUB/Images", "icon", ".png"⟩ 2048) none none).2.new_size
       = (IPRec.fromPath ⟨"EPUB/Images", "icon", ".png"⟩ 2048).original_size ∧
     (IPRec.optimizeImage defaultImgSettings
        (IPRec.fromPath ⟨"EPUB/Images", "icon", ".png"⟩ 2048) none none).2.new_mode
       = (IPRec.fromPath ⟨"EPUB/Images", "icon", ".png"⟩ 2048).original_mode ∧
     (IPRec.optimizeImage defaultImgSettings
        (IPRec.fromPath ⟨"EPUB/Images", "icon", ".png"⟩ 2048) none none).2.new_dimensions
       = (IPRec.fromPath ⟨"EPUB/Images", "icon", ".png"⟩ 2048).original_dimensions) :=
  ⟨(c6_not_eligible defaultImgSettings (IPRec.fromPath ⟨"EPUB/Images", "icon", ".png"⟩ 2048)
      none none).1,
   (c6_not_eligible defaultImgSettings (IPRec.fromPath ⟨"EPUB/Images", "icon", ".png"⟩ 2048)
      none none).2 (by decide)⟩

/-- Whether the first character list starts the second (helper for the
substring test below). -/
def startsChars : List Char → List Char → Bool
  | [], _ => true
  | _ :: _, [] => false
  | a :: as, b :: bs => a == b && startsChars as bs

/-- Whether the first character list occurs inside the second. -/
def containsChars (needle : List Char) : List Char → Bool
  | [] => startsChars needle []
  | c :: rest => startsChars needle (c :: rest) || containsChars needle rest

/-- Python's `needle in haystack` on strings (substring containment). -/
def strIn (needle hay : String) : Bool := containsChars needle.data hay.data

/-- Replace the element at an index, leaving the list unchanged when the
index is out of range. -/
def listModify (f : α → α) : Nat → List α → List α
  | _, [] => []
  | 0, x :: xs => f x :: xs
  | n + 1, x :: xs => x :: listModify f n xs

/-- One chapter file as `_update_single_chapter` sees it: the `src`
values of its `<img>` tags, whether reading+parsing succeeds, and whether
the final `write_bytes` succeeds. -/
structure Chapter where
  srcs : List String
  parseOk : Bool
  writeOk : Bool
deriving DecidableEq, Repr

/-- `_update_single_chapter` (`ewa/utils/epub/epub_pipeline.py`, lines
451-481), returning the updated results list and whether the chapter file
was written.  For each `<img>`, the first result whose original filename
occurs in the `src` gets `total_references` incremented immediately
(under the lock); rewrites are queued and `updated_references` is bumped
only after a successful write.  Any exception (parse or write) is caught
and merely logged: on a parse failure nothing happens, on a write failure
the totals remain incremented and the queued updates are dropped —
nothing records the chapter failure. -/
def updateSingleChapter (c : Chapter) (results : List ImageResizeStats) :
    List ImageResizeStats × Bool :=
  if ¬ c.parseOk then (results, false)
  else
    let scanned := c.srcs.foldl
      (fun (acc : List ImageResizeStats × List Nat) src =>
        match acc.1.findIdx? (fun r => strIn r.original_path.name src) with
        | none => acc
        | some i =>
            let rs := listModify
              (fun r => { r with total_references := r.total_references + 1 }) i acc.1
            match acc.1.get? i with
            | none => (rs, acc.2)
            | some r =>
                if r.renamed ∧ r.success then (rs, acc.2 ++ [i]) else (rs, acc.2))
      (results, [])
    if c.writeOk then
      (scanned.2.foldl
        (fun rs i =>
          listModify (fun r => { r with updated_references := r.updated_references + 1 }) i rs)
        scanned.1, true)
    else
      (scanned.1, false)

/-- `update_references` (`ewa/utils/epub/epub_pipeline.py`, lines
427-448): skip everything when there are no chapters or no resize
results, otherwise run every chapter (the thread pool with a shared lock
is linearized into a fold). -/
def updateReferences (results : List ImageResizeStats) (chapters : List Chapter) :
    List ImageResizeStats :=
  if chapters = [] ∨ results = [] then results
  else chapters.foldl (fun rs c => (updateSingleChapter c rs).1) results

/-- Destination directories set up by `_setup_dirs` /
`EpubState.__post_init__`. -/
inductive Dest where
  | quarantine
  | resized
  | unchanged
  | processed
deriving DecidableEq, Repr

/-- The `images_to_remove` list built by `_remove_unused_images`
(`ewa/utils/epub/epub_pipeline.py`, lines 521-528; identical in
`EpubProcessor._remove_unused_images`, `epub_builder.py` lines 253-261):
originals of successful renamed results, plus new paths of failed renamed
results that exist on disk — `reference_status` is never consulted. -/
def imagesToRemove (exists? : EPath → Bool) : List ImageResizeStats → List EPath
  | [] => []
  | r :: rs =>
      (if r.success then (if r.renamed then [r.original_path] else [])
       else if r.renamed then
         match r.new_path with
         | some np => if exists? np then [np] else []
         | none => []
       else []) ++ imagesToRemove exists? rs

/-- Modelled from the spec's words for claim C2: images that are
`renamed && success && reference_status == success`, plus images that
were renamed but failed transform whose stray new-path artifact exists. -/
def imagesToRemoveSpec (exists? : EPath → Bool) : List ImageResizeStats → List EPath
  | [] => []
  | r :: rs =>
      (if r.renamed ∧ r.success ∧ r.refStatus = "success" then [r.original_path]
       else if r.renamed ∧ ¬ r.success then
         match r.new_path with
         | some np => if exists? np then [np] else []
         | none => []
       else []) ++ imagesToRemoveSpec exists? rs

/-- The deletion loop of `_remove_unused_images`: unlink in order and
stop at the first failure; returns whether all deletions succeeded and
the list of files actually deleted. -/
def deleteLoop (unlinkOk : EPath → Bool) : List EPath → Bool × List EPath
  | [] => (true, [])
  | p :: ps =>
      if unlinkOk p then
        let r := deleteLoop unlinkOk ps
        (r.1, p :: r.2)
      else (false, [])

/-- `_remove_unused_images` (`ewa/utils/epub/epub_pipeline.py`, lines
516-545): returns the success flag, the destination directory for the
epub file, and the images actually deleted.  Empty removal list →
`(False, unchanged)`; count mismatch against renamed results →
`(False, quarantine)`; deletion failure → `(False, quarantine)`;
otherwise `(True, resized)`. -/
def removeUnusedImages (results : List ImageResizeStats) (exists? unlinkOk : EPath → Bool) :
    Bool × Dest × List EPath :=
  let toRemove := imagesToRemove exists? results
  if toRemove = [] then (false, Dest.unchanged, [])
  else if toRemove.length ≠ (results.filter (fun r => r.renamed)).length then
    (false, Dest.quarantine, [])
  else
    let del := deleteLoop unlinkOk toRemove
    if del.1 then (true, Dest.resized, del.2) else (false, Dest.quarantine, del.2)

/-- Observable outcome of `package_epub`. -/
structure PkgOutcome where
  archiveWritten : Bool
  archiveDest : Option Dest
  originalMovedTo : Option Dest
  deleted : List EPath
deriving DecidableEq, Repr

/-- `package_epub` (`ewa/utils/epub/epub_pipeline.py`, lines 484-499): on
validation success a new archive is written into the target directory
(`archiveOk = false` models `_archive_directory` raising, which is caught
and logged); on failure the ORIGINAL epub file is renamed into the target
directory and no archive is written. -/
def packageEpub (results : List ImageResizeStats) (exists? unlinkOk : EPath → Bool)
    (archiveOk : Bool) : PkgOutcome :=
  let r := removeUnusedImages results exists? unlinkOk
  if r.1 then
    { archiveWritten := archiveOk,
      archiveDest := if archiveOk then some r.2.1 else none,
      originalMovedTo := none, deleted := r.2.2 }
  else
    { archiveWritten := false, archiveDest := none,
      originalMovedTo := some r.2.1, deleted := r.2.2 }

/-- The transform result of a 2000x3000 RGB `photo.png` that the engine
successfully converts and renames to `photo.jpg` (built through the real
`_resize_single_image` embedding). -/
def c1Image : ImageResizeStats :=
  resizeSingleImage ⟨"EPUB/Images", "photo", ".png"⟩ 60000 51200 1080 none
    ⟨ImgMode.RGB, (2000, 3000), [(0, 255), (0, 255), (0, 255)]⟩ (some 30000)

/-- C1: a run with one successfully renamed image and one chapter whose
write raises.  The chapter failure is swallowed (`_update_single_chapter`
only logs it), `package_epub` never looks at chapter outcomes, and the
run packages a new archive into the resized directory and deletes the
original image — not the Quarantined outcome with zero deletions that the
claim (and the spec) require. -/
theorem c1_write_failure_still_packages :
    (updateSingleChapter ⟨["../Images/photo.png"], true, false⟩ [c1Image]).2 = false ∧
    (updateReferences [c1Image] [⟨["../Images/photo.png"], true, false⟩]).map
        (fun r => (r.total_references, r.updated_references)) = [(1, 0)] ∧
    packageEpub (updateReferences [c1Image] [⟨["../Images/photo.png"], true, false⟩])
        (fun _ => true) (fun _ => true) true =
      { archiveWritten := true, archiveDest := some Dest.resized,
        originalMovedTo := none,
        deleted := [⟨"EPUB/Images", "photo", ".png"⟩] } := by
  refine ⟨by decide, by decide, by decide⟩

/-- The transform result of a `photo2.png` whose save raises: the result
is failed but already renamed (its `new_path` carries the `.jpg`
suffix). -/
def c2FailedImage : ImageResizeStats :=
  resizeSingleImage ⟨"EPUB/Images", "photo2", ".png"⟩ 60000 51200 1080 none
    ⟨ImgMode.RGB, (2000, 3000), [(0, 255), (0, 255), (0, 255)]⟩ none

/-- C2 counterexample: one successfully renamed image with zero
references (`reference_status = orphaned`).  The claim's
`images_to_remove` is empty and its consistency rule fires
(0 ≠ 1 renamed), demanding no packaging and a Quarantined outcome — but
the code's list contains the image regardless of its reference status,
the counts match, and the pipeline deletes the original and packages into
the resized directory. -/
theorem c2_counterexample :
    imagesToRemove (fun _ => true) [c1Image] ≠ imagesToRemoveSpec (fun _ => true) [c1Image] ∧
    c1Image.refStatus ≠ "success" ∧
    c1Image.renamed = true ∧
    c1Image.success = true ∧
    (imagesToRemoveSpec (fun _ => true) [c1Image]).length ≠
      ([c1Image].filter (fun r => r.renamed)).length ∧
    packageEpub [c1Image] (fun _ => true) (fun _ => true) true =
      { archiveWritten := true, archiveDest := some Dest.resized,
        originalMovedTo := none,
        deleted := [⟨"EPUB/Images", "photo", ".png"⟩] } := by
  refine ⟨by decide, by decide, by decide, by decide, by decide, by decide⟩

/-- C2 (amended): `images_to_remove` consists of the originals of
renamed-and-successful images REGARDLESS of reference status, plus the
new paths of renamed-but-failed images whose stray file exists; when the
list is empty the outcome is Unchanged (even on a count mismatch), and
otherwise a count mismatch against the renamed images aborts packaging
with the original moved to quarantine and nothing deleted. -/
theorem c2_validation_behaviour (results : List ImageResizeStats)
    (ex ul : EPath → Bool) (archiveOk : Bool) :
    (imagesToRemove ex results = [] →
       packageEpub results ex ul archiveOk =
         { archiveWritten := false, archiveDest := none,
           originalMovedTo := some Dest.unchanged, deleted := [] }) ∧
    (imagesToRemove ex results ≠ [] →
       (imagesToRemove ex results).length ≠ (results.filter (fun r => r.renamed)).length →
       packageEpub results ex ul archiveOk =
         { archiveWritten := false, archiveDest := none,
           originalMovedTo := some Dest.quarantine, deleted := [] }) ∧
    (∀ p, p ∈ imagesToRemove ex results ↔
       ((∃ r ∈ results, r.success = true ∧ r.renamed = true ∧ p = r.original_path) ∨
        (∃ r ∈ results, r.success = false ∧ r.renamed = true ∧
           r.new_path = some p ∧ ex p = true))) := by
  refine ⟨?_, ?_, ?_⟩
  · intro hempty
    simp [packageEpub, removeUnusedImages, hempty]
  · intro hne hmis
    simp [packageEpub, removeUnusedImages, hne, hmis]
  · intro p
    induction results with
    | nil => simp [imagesToRemove]
    | cons r rs ih =>
        rcases hnp : r.new_path with _ | np <;>
          cases hs : r.success <;> cases hr : r.renamed <;>
          simp [imagesToRemove, hs, hr, hnp, ih] <;>
          aesop

/-- C2 amendment witness: one successful renamed image plus one failed
renamed image whose stray file does not exist gives a 1-vs-2 count
mismatch, aborting packaging into quarantine with nothing deleted. -/
theorem c2_validation_behaviour_witness :
    packageEpub [c1Image, c2FailedImage] (fun _ => false) (fun _ => true) true =
      { archiveWritten := false, archiveDest := none,
        originalMovedTo := some Dest.quarantine, deleted := [] } :=
  (c2_validation_behaviour [c1Image, c2FailedImage] (fun _ => false) (fun _ => true) true).2.1
    (by decide) (by decide)

/-- Split a character list on `/` (helper for Python's
`src.split("/")`). -/
def splitSegs : List Char → List (List Char)
  | [] => [[]]
  | c :: rest =>
      let r := splitSegs rest
      if c = '/' then [] :: r
      else
        match r with
        | [] => [[c]]
        | s :: ss => (c :: s) :: ss

/-- Python's `src.split("/")[-1]`: the text after the last slash. -/
def lastSegment (s : String) : String := ⟨(splitSegs s.data).getLastD []⟩

/-- The number of `<img>` tags whose filename is a key of the rename
map — the references the library rewriter rewrites. -/
def countMatches (replacers : List (String × String)) (srcs : List String) : Nat :=
  srcs.countP (fun src => (replacers.lookup (lastSegment src)).isSome)

/-- Result of `library/markup/chapter_processor.py`
`ChapterProcessor.update_image_references`: the returned boolean, the
`references_updated` counter, and whether `write_chapter` was invoked. -/
structure LibChapterResult where
  returnValue : Bool
  references_updated : Nat
  writeAttempted : Bool
deriving DecidableEq, Repr

/-- `ChapterProcessor.update_image_references`
(`library/markup/chapter_processor.py`, lines 59-77): rewrite every
reference whose filename is in the rename map, then write the document
back ONLY when `references_updated > 0`; a raising write is caught,
zeroes the counter and returns False. -/
def libraryUpdateImageReferences (srcs : List String) (replacers : List (String × String))
    (writeOk : Bool) : LibChapterResult :=
  let count := countMatches replacers srcs
  if count > 0 then
    if writeOk then ⟨true, count, true⟩
    else ⟨false, 0, true⟩
  else ⟨true, count, false⟩

/-- C7 counterexample: the pipeline's `_update_single_chapter` writes a
chapter back even when not a single reference was rewritten (the results
list comes back untouched), so a rewrite-free document is re-written
(re-prettified) on disk rather than left byte-identical. -/
theorem c7_counterexample :
    (updateSingleChapter ⟨["../Images/x.png"], true, true⟩ [c1Image]).2 = true ∧
    (updateSingleChapter ⟨["../Images/x.png"], true, true⟩ [c1Image]).1 = [c1Image] := by
  refine ⟨by decide, by decide⟩

/-- C7 (amended): the library `ChapterProcessor` writes the document back
exactly when at least one reference was rewritten, but the pipeline's
`_update_single_chapter` writes every parsed chapter unconditionally
(its write outcome depends only on the chapter's own write success, not
on whether anything was rewritten). -/
theorem c7_write_policy (srcs : List String) (replacers : List (String × String))
    (writeOk : Bool) (c : Chapter) (results : List ImageResizeStats)
    (hparse : c.parseOk = true) :
    ((libraryUpdateImageReferences srcs replacers writeOk).writeAttempted = true ↔
       0 < countMatches replacers srcs) ∧
    (updateSingleChapter c results).2 = c.writeOk := by
  constructor
  · unfold libraryUpdateImageReferences
    by_cases h : 0 < countMatches replacers srcs
    · cases writeOk <;> simp [h]
    · simp [h]
  · unfold updateSingleChapter
    simp [hparse]
    cases hw : c.writeOk <;> simp

/-- C7 amendment witness: a chapter with one rewritable reference is
written by the library variant, and the pipeline variant reports the
write outcome of an untouched chapter as successful. -/
theorem c7_write_policy_witness :
    ((libraryUpdateImageReferences ["../Images/a.png"] [("a.png", "a.jpg")] true).writeAttempted
        = true ↔
       0 < countMatches [("a.png", "a.jpg")] ["../Images/a.png"]) ∧
    (updateSingleChapter ⟨["../Images/x.png"], true, true⟩ [c1Image]).2 =
      (⟨["../Images/x.png"], true, true⟩ : Chapter).writeOk :=
  c7_write_policy ["../Images/a.png"] [("a.png", "a.jpg")] true
    ⟨["../Images/x.png"], true, true⟩ [c1Image] (by decide)

/-- The per-image view `EpubState.remove_unused_images` reads from each
element of `image_processors`: the attributes its body accesses
(duck-typed; `new_path_exists` stands for `new_path.exists()`). -/
structure IPView where
  success : Bool
  renamed : Bool
  original_path : EPath
  new_path : EPath
  new_path_exists : Bool
  total_references : Nat
  updated_references : Nat
deriving DecidableEq, Repr

/-- The slice of `EpubState` (`ewa/utils/epub/epub_state.py`, lines
47-72) that `remove_unused_images` and `move_original` touch. -/
structure EpubStateRec where
  chapter_errors : Nat
  image_processors : List IPView
  images_to_remove : List EPath
  success : Bool
deriving DecidableEq, Repr

/-- `EpubState.remove_unused_images` (`ewa/utils/epub/epub_state.py`,
lines 275-308): chapter errors, an empty removal list, a count mismatch
and failed deletions each set `self.success = False` — and then the final
statement of the method overwrites the flag with `self.success = True`
unconditionally. -/
def epubStateRemoveUnusedImages (s : EpubStateRec) (unlinkOk : EPath → Bool) :
    EpubStateRec :=
  let s1 := if s.chapter_errors > 0 then { s with success := false } else s
  let toRemove : List EPath := s1.images_to_remove ++
    s1.image_processors.foldr
      (fun ip acc =>
        (if ip.success ∧ ip.renamed ∧
            referencesUpdateStatus ip.total_references ip.updated_references = "success" then
           [ip.original_path] else []) ++
        (if ¬ ip.success ∧ ip.renamed ∧ ip.new_path_exists then [ip.new_path] else []) ++ acc)
      ([] : List EPath)
  let s2 := { s1 with images_to_remove := toRemove }
  let s3 := if toRemove = [] then { s2 with success := false } else s2
  let s4 :=
    if toRemove.length ≠ (s3.image_processors.filter (fun ip => ip.renamed)).length then
      { s3 with success := false } else s3
  let s5 := if toRemove.any (fun p => ¬ unlinkOk p) then { s4 with success := false } else s4
  { s5 with success := true }

/-- `EpubState.move_original` (`ewa/utils/epub/epub_state.py`, lines
310-316): the destination the original archive is renamed into. -/
def epubStateMoveOriginalDest (s : EpubStateRec) : Dest :=
  if s.success then Dest.processed else Dest.quarantine

/-- C9: `EpubState.remove_unused_images` ends by setting the success flag
to True for EVERY input state — chapter errors, count mismatches and
failed deletions included — so the subsequent `move_original` always
files the archive under the processed directory, never quarantine. -/
theorem c9_success_always_true (s : EpubStateRec) (unlinkOk : EPath → Bool) :
    (epubStateRemoveUnusedImages s unlinkOk).success = true ∧
    epubStateMoveOriginalDest (epubStateRemoveUnusedImages s unlinkOk) = Dest.processed := by
  constructor
  · rfl
  · unfold epubStateMoveOriginalDest
    simp [epubStateRemoveUnusedImages]

/-- One element of `EpubState.image_processors` as the interpreter sees
it: either a real `ImageProcessor` object or a bare boolean (what
`resize_illustrations` actually stores, since `optimize_image` returns a
bool). -/
inductive ProcElem where
  | ipElem (ip : IPRec)
  | boolElem (b : Bool)
deriving DecidableEq, Repr

/-- Python attribute access `processor.original_path`: defined on
`ImageProcessor`, an `AttributeError` on a bool. -/
def ProcElem.getOriginalPath : ProcElem → Except String EPath
  | .ipElem ip => Except.ok ip.original_path
  | .boolElem _ => Except.error "AttributeError: original_path"

/-- Python call `processor.threadsafe_increment_total_references()`: the
method is defined nowhere in the repository, so the access raises on
every receiver. -/
def ProcElem.incTotalRefs : ProcElem → Except String Unit :=
  fun _ => Except.error "AttributeError: threadsafe_increment_total_references"

/-- Python attribute access `processor.renamed`: a property of
`ImageProcessor`, an `AttributeError` on a bool. -/
def ProcElem.getRenamed : ProcElem → Except String Bool
  | .ipElem ip => Except.ok ip.renamed
  | .boolElem _ => Except.error "AttributeError: renamed"

/-- Python attribute access `processor.success`: `ImageProcessor` defines
no such field or property, so the access raises on every receiver. -/
def ProcElem.getSuccess : ProcElem → Except String Bool :=
  fun _ => Except.error "AttributeError: success"

/-- Python `processor.new_path.name`: raises on a bool (no attribute) and
on a `None` path. -/
def ProcElem.getNewPathName : ProcElem → Except String String
  | .ipElem ip =>
      match ip.new_path with
      | some p => Except.ok p.name
      | none => Except.error "AttributeError: NoneType has no attribute name"
  | .boolElem _ => Except.error "AttributeError: new_path"

/-- The inner `for processor in image_processors` loop of
`ewa/utils/epub/chapter_processor.py` `update_image_references` (lines
47-60) for one `<img>` tag: returns the status recorded for the tag
(`none` means the for-else `not found` branch), any raised exception
propagating.  Note the loop reads `processor.original_path` before any
match test, so a bool element raises immediately. -/
def ewaProcessTag (src : String) : List ProcElem → Except String (Option (String × String))
  | [] => Except.ok none
  | p :: ps =>
      match p.getOriginalPath with
      | Except.error e => Except.error e
      | Except.ok op =>
          if strIn op.name src then
            match p.incTotalRefs with
            | Except.error e => Except.error e
            | Except.ok _ =>
                match p.getRenamed with
                | Except.error e => Except.error e
                | Except.ok ren =>
                    if ¬ ren then Except.ok (some (src, "not renamed"))
                    else
                      match p.getSuccess with
                      | Except.error e => Except.error e
                      | Except.ok suc =>
                          if ¬ suc then Except.ok (some (src, "not renamed"))
                          else
                            match p.getNewPathName with
                            | Except.error e => Except.error e
                            | Except.ok _ => Except.ok (some (src, "renamed"))
          else
            ewaProcessTag src ps

/-- The outer tag loop: statuses for all tags, exceptions propagating. -/
def ewaTagsLoop (procs : List ProcElem) : List String → Except String (List (String × String))
  | [] => Except.ok []
  | t :: ts =>
      match ewaProcessTag t procs with
      | Except.error e => Except.error e
      | Except.ok r =>
          match ewaTagsLoop procs ts with
          | Except.error e => Except.error e
          | Except.ok rest =>
              match r with
              | some st => Except.ok (st :: rest)
              | none => Except.ok ((t, "not found") :: rest)

/-- Result dictionary of `ChapterProcessor.update_image_references`
(`ewa/utils/epub/chapter_processor.py`). -/
structure EwaChapterResult where
  chapter : String
  success : Bool
  error : Option String
deriving DecidableEq, Repr

/-- `ChapterProcessor.update_image_references`
(`ewa/utils/epub/chapter_processor.py`, lines 33-69): the whole body runs
under one `try`; any exception is recorded as a chapter failure
(`success: False`).  After the loops the chapter is written
(`writeOk = false` models the write raising) and the queued
`threadsafe_increment_updated_references` calls run — which would raise
too, the method being defined nowhere. -/
def ewaUpdateImageReferences (chapterName : String) (tags : List String)
    (procs : List ProcElem) (writeOk : Bool) : EwaChapterResult :=
  let body : Except String (List (String × String)) :=
    match ewaTagsLoop procs tags with
    | Except.error e => Except.error e
    | Except.ok statuses =>
        if ¬ writeOk then Except.error "OSError: write failed"
        else if 0 < (statuses.filter (fun st => st.2 = "renamed")).length then
          Except.error "AttributeError: threadsafe_increment_updated_references"
        else Except.ok statuses
  match body with
  | Except.ok _ => { chapter := chapterName, success := true, error := none }
  | Except.error e => { chapter := chapterName, success := false, error := some e }

/-- `EpubState.resize_illustrations` (`ewa/utils/epub/epub_state.py`,
lines 231-238): `executor.map(lambda ip: ip.optimize_image(), ...)`
stores the BOOLEAN return values of `optimize_image` as
`self.image_processors`.  Each input carries its processor record and the
decode/save oracles of its `optimize_image` run. -/
def resizeIllustrations (settings : ImgSettings)
    (inputs : List (IPRec × Option ImgInfo × Option Nat)) : List ProcElem :=
  inputs.map (fun t => ProcElem.boolElem (IPRec.optimizeImage settings t.1 t.2.1 t.2.2).1)

/-- C10: after `resize_illustrations` stores the boolean returns of
`optimize_image`, every chapter containing at least one `<img>` tag fails
in `update_image_references` whenever the stored list is non-empty: the
per-reference loop's first attribute access on a bool raises, the
exception is caught, and the chapter is recorded as failed. -/
theorem c10_bool_processors_fail_chapters (settings : ImgSettings)
    (inputs : List (IPRec × Option ImgInfo × Option Nat))
    (chapterName : String) (tags : List String) (writeOk : Bool)
    (hinputs : inputs ≠ []) (htags : tags ≠ []) :
    (ewaUpdateImageReferences chapterName tags (resizeIllustrations settings inputs)
        writeOk).success = false := by
  cases inputs with
  | nil => exact absurd rfl hinputs
  | cons i is =>
      cases tags with
      | nil => exact absurd rfl htags
      | cons t ts =>
          simp [ewaUpdateImageReferences, ewaTagsLoop, ewaProcessTag, resizeIllustrations,
                ProcElem.getOriginalPath]

/-- C10 witness: one below-threshold image (whose `optimize_image` run
returned True) stored as a bool, and one chapter with one `<img>` tag. -/
theorem c10_bool_processors_fail_chapters_witness :
    (ewaUpdateImageReferences "chapter1.xhtml" ["../Images/icon.png"]
        (resizeIllustrations defaultImgSettings
          [(IPRec.fromPath ⟨"EPUB/Images", "icon", ".png"⟩ 2048, none, none)])
        true).success = false :=
  c10_bool_processors_fail_chapters defaultImgSettings
    [(IPRec.fromPath ⟨"EPUB/Images", "icon", ".png"⟩ 2048, none, none)]
    "chapter1.xhtml" ["../Images/icon.png"] true
    (by decide) (by decide)
